import Mathlib

/-!
Verification of the QuadriCAD engineering core (src/quadri_cad.py).

The source is a Python program; its calculation engine is a set of pure
functions over floating-point numbers.  We embed those functions over ℚ,
keeping the Italian identifiers of the source.  Fallible code (Python
expressions that can raise, such as a division whose denominator can be
zero, or the UI add-load handler that rejects invalid input) is embedded
as `Except`-valued functions.  Python's `min` over a possibly-empty list
is embedded as an `Option`-valued minimum.
-/

namespace QuadriCad

/-- Load regime, the two values offered by the UI selectbox and tested by
string equality in the source (`regime == "continuo"` / `"intermittente"`). -/
inductive Regime where
  | continuo
  | intermittente
deriving DecidableEq

/-- The test `c.regime == "continuo"` of the source, as a Boolean
predicate on the two-valued regime. -/
def Regime.is_continuo : Regime → Bool
  | .continuo => true
  | .intermittente => false

/-- The test `c.regime == "intermittente"` of the source. -/
def Regime.is_intermittente : Regime → Bool
  | .continuo => false
  | .intermittente => true

/-- Python's `str.lower()`, character-wise lowering of the string. -/
def pyLower (s : String) : String := String.mk (s.data.map Char.toLower)

/-- Python's `str.strip()`: remove leading and trailing whitespace. -/
def pyStrip (s : String) : String :=
  String.mk (((s.data.dropWhile Char.isWhitespace).reverse.dropWhile Char.isWhitespace).reverse)

/-- The `Carico` dataclass of the source (a named electrical load). -/
structure Carico where
  nome : String
  potenza_kw : ℚ
  cos_phi : ℚ
  regime : Regime
  priorita : String
  ore_giorno : ℚ
deriving DecidableEq

/-- One row of the breaker database `load_interruttori_db` (columns
`serie`, `modello`, `in_nom`, `icu`, `prezzo`). -/
structure Interruttore where
  serie : String
  modello : String
  in_nom : ℚ
  icu : ℚ
  prezzo : ℚ
deriving DecidableEq

/-- The static breaker catalog returned by `load_interruttori_db`. -/
def load_interruttori_db : List Interruttore :=
  [⟨"T1", "T1S160", 63, 15, 450⟩,
   ⟨"T1", "T1S160", 80, 15, 520⟩,
   ⟨"T2", "T2S160", 100, 25, 680⟩,
   ⟨"T2", "T2S160", 125, 25, 750⟩,
   ⟨"T3", "T3S250", 160, 35, 950⟩,
   ⟨"T3", "T3S250", 200, 35, 1100⟩,
   ⟨"T4", "T4S250", 250, 50, 1450⟩,
   ⟨"T5", "T5H400", 320, 65, 2200⟩,
   ⟨"T5", "T5H400", 400, 65, 2800⟩,
   ⟨"E1", "E1N800", 630, 42, 4500⟩,
   ⟨"E1", "E1N800", 800, 42, 5200⟩,
   ⟨"E2", "E2N1250", 1000, 65, 7800⟩,
   ⟨"E3", "E3N1600", 1250, 65, 12000⟩,
   ⟨"E3", "E3N3200", 1600, 65, 15000⟩]

/-- Failure modes of the sizing computation.  The spec's error taxonomy
names a typed `EmptyLoadSet` input error; the source's only failure on
this path is an unhandled Python `ZeroDivisionError` raised by the
simultaneity ratio when the installed power is zero, modelled here as
`divisioneZero`. -/
inductive ErroreCalcolo where
  | emptyLoadSet
  | divisioneZero
deriving DecidableEq

/-- `pot_installata` of `calcola_potenza_dimensionamento`: sum of
`potenza_kw` over all loads. -/
def pot_installata (carichi : List Carico) : ℚ :=
  (carichi.map Carico.potenza_kw).sum

/-- `pot_continua` of `calcola_potenza_dimensionamento`: sum of
`potenza_kw` over the loads whose `regime` is `continuo`. -/
def pot_continua (carichi : List Carico) : ℚ :=
  ((carichi.filter fun c => c.regime.is_continuo).map Carico.potenza_kw).sum

/-- `pot_intermittente` of `calcola_potenza_dimensionamento`: sum of
`potenza_kw * (ore_giorno / 24)` over the loads whose `regime` is
`intermittente`. -/
def pot_intermittente (carichi : List Carico) : ℚ :=
  ((carichi.filter fun c => c.regime.is_intermittente).map
    fun c => c.potenza_kw * (c.ore_giorno / 24)).sum

/-- `fattore_contemporaneita` of `calcola_potenza_dimensionamento`:
`min(0.9, (pot_continua + pot_intermittente*0.7) / pot_installata)`. -/
def fattore_contemporaneita (carichi : List Carico) : ℚ :=
  min 0.9 ((pot_continua carichi + pot_intermittente carichi * 0.7) / pot_installata carichi)

/-- `calcola_potenza_dimensionamento` of the source.  The division
defining the simultaneity factor raises `ZeroDivisionError` in Python
when `pot_installata` is zero (in particular on an empty load list);
that failure is the `Except.error .divisioneZero` branch. -/
def calcola_potenza_dimensionamento (carichi : List Carico) :
    Except ErroreCalcolo (ℚ × ℚ × ℚ) :=
  if pot_installata carichi = 0 then Except.error ErroreCalcolo.divisioneZero
  else
    Except.ok (pot_installata carichi, fattore_contemporaneita carichi,
      pot_installata carichi * fattore_contemporaneita carichi * 1.15)

/-- `calcola_corrente_cortocircuito` of the source:
`sn_mva = potenza_trasf_kva / 1000`; result `(sn_mva * 1000) / (1.732 * tensione * 0.06)`. -/
def calcola_corrente_cortocircuito (potenza_trasf_kva : ℚ) (tensione : ℚ := 400) : ℚ :=
  ((potenza_trasf_kva / 1000) * 1000) / (1.732 * tensione * 0.06)

/-- First element of minimal `prezzo` in a list of breakers; embeds
pandas `candidati.loc[candidati['prezzo'].idxmin()]`, whose `idxmin`
returns the first index attaining the minimum. -/
def primoMinPrezzo : List Interruttore → Option Interruttore
  | [] => none
  | b :: bs =>
    match primoMinPrezzo bs with
    | none => some b
    | some c => if b.prezzo ≤ c.prezzo then some b else some c

/-- `seleziona_interruttore` of the source: filter the catalog by
`in_nom ≥ corrente_richiesta * 1.25` and `icu ≥ icc`, then take the
cheapest candidate; `none` embeds the `{"errore": ...}` return. -/
def seleziona_interruttore (corrente_richiesta icc : ℚ) (db : List Interruttore) :
    Option Interruttore :=
  primoMinPrezzo (db.filter fun b =>
    decide (corrente_richiesta * 1.25 ≤ b.in_nom) && decide (icc ≤ b.icu))

/-- Failure mode of the thermal verification: the margin formula divides
by `pot_dissipabile_max`, raising `ZeroDivisionError` in Python when that
is zero.  The source contains no volume-validation error. -/
inductive ErroreTermico where
  | divisioneZero
deriving DecidableEq

/-- The dictionary returned by `verifica_termica_semplificata`. -/
structure EsitoTermico where
  pot_dissipata : ℚ
  pot_dissipabile : ℚ
  margine_pct : ℚ
  esito : String
deriving DecidableEq

/-- `coeff_dissip.get(ip_grade, 0.8)` of the source: the fixed mapping
IP31 ↦ 1.0, IP43 ↦ 0.9, IP65 ↦ 0.75, anything else ↦ 0.8. -/
def coeff_dissip (ip_grade : String) : ℚ :=
  if ip_grade = "IP31" then 1.0
  else if ip_grade = "IP43" then 0.9
  else if ip_grade = "IP65" then 0.75
  else 0.8

/-- `pot_dissipabile_max` of `verifica_termica_semplificata`:
`volume_m3 * 400 * k_dissip`. -/
def pot_dissipabile_max (volume_m3 : ℚ) (ip_grade : String) : ℚ :=
  volume_m3 * 400 * coeff_dissip ip_grade

/-- `margine` of `verifica_termica_semplificata`:
`(pot_dissipabile_max - pot_dissipata) / pot_dissipabile_max * 100`. -/
def margine (pot_dissipata volume_m3 : ℚ) (ip_grade : String) : ℚ :=
  (pot_dissipabile_max volume_m3 ip_grade - pot_dissipata) / pot_dissipabile_max volume_m3 ip_grade * 100

/-- `verifica_termica_semplificata` of the source.  It performs no input
validation: the only failure is the division by `pot_dissipabile_max`
when that quantity is zero. -/
def verifica_termica_semplificata (pot_dissipata volume_m3 : ℚ) (ip_grade : String) :
    Except ErroreTermico EsitoTermico :=
  if pot_dissipabile_max volume_m3 ip_grade = 0 then Except.error ErroreTermico.divisioneZero
  else
    Except.ok ⟨pot_dissipata, pot_dissipabile_max volume_m3 ip_grade,
      margine pot_dissipata volume_m3 ip_grade,
      if 20 < margine pot_dissipata volume_m3 ip_grade then "OK"
      else if 0 < margine pot_dissipata volume_m3 ip_grade then "CRITICO" else "NON OK"⟩

/-- The fixed ascending list `trasf_std` of standard transformer sizes (kVA). -/
def trasf_std : List ℕ := [160, 250, 315, 400, 500, 630, 800, 1000, 1250, 1600, 2000, 2500]

/-- Python's `min` over a list, `none` embedding the `ValueError` raised
on an empty argument. -/
def pyMin : List ℕ → Option ℕ
  | [] => none
  | a :: as =>
    match pyMin as with
    | none => some a
    | some m => some (if a ≤ m then a else m)

/-- The transformer lookup of the source:
`min([t for t in trasf_std if t >= pot_dim])`. -/
def select_transformer (pot_dim : ℚ) : Option ℕ :=
  pyMin (trasf_std.filter fun t => decide (pot_dim ≤ (t : ℚ)))

/-- Failure modes of the add-load handler in the source UI, in the order
the handler checks them: blank name, non-positive power, case-insensitive
duplicate name. -/
inductive ErroreAdd where
  | denominazioneMancante
  | potenzaNonPositiva
  | nomeDuplicato
deriving DecidableEq

/-- The add-load handler of the source UI: validate the entered fields in
order (blank name, non-positive power, case-insensitive duplicate name)
and on success append `Carico(nome.strip(), ...)` to the collection. -/
def aggiungi_carico (carichi : List Carico) (nome : String) (potenza cos_phi : ℚ)
    (regime : Regime) (priorita : String) (ore_giorno : ℚ) :
    Except ErroreAdd (List Carico) :=
  if pyStrip nome = "" then Except.error ErroreAdd.denominazioneMancante
  else if potenza ≤ 0 then Except.error ErroreAdd.potenzaNonPositiva
  else if carichi.any fun c => decide (pyLower c.nome = pyLower nome) then
    Except.error ErroreAdd.nomeDuplicato
  else Except.ok (carichi ++ [⟨pyStrip nome, potenza, cos_phi, regime, priorita, ore_giorno⟩])

/-- The load collection after an add attempt: the source mutates
`st.session_state.carichi` only in the success branch, so on any error
the collection is the one before the call. -/
def carichi_dopo_aggiunta (carichi : List Carico) (nome : String) (potenza cos_phi : ℚ)
    (regime : Regime) (priorita : String) (ore_giorno : ℚ) : List Carico :=
  match aggiungi_carico carichi nome potenza cos_phi regime priorita ore_giorno with
  | Except.error _ => carichi
  | Except.ok l => l

/-- The carpentry (enclosure) selection of the source: an ordered guard
chain on `numero_partenze = numero_carichi + 1` (one breaker per load
plus the main incomer) and the general current. -/
def scegli_carpenteria (numero_carichi : ℕ) (in_generale : ℚ) : String × ℚ :=
  if numero_carichi + 1 ≤ 6 ∧ in_generale ≤ 400 then ("ArTu M - 1 colonna", 8000)
  else if numero_carichi + 1 ≤ 12 ∧ in_generale ≤ 800 then ("ArTu K - 1 colonna", 12000)
  else ("ArTu K - 2 colonne", 18000)

/-! ### Helper lemmas -/

@[simp] lemma is_continuo_continuo : Regime.continuo.is_continuo = true := rfl

@[simp] lemma is_continuo_intermittente : Regime.intermittente.is_continuo = false := rfl

@[simp] lemma is_intermittente_continuo : Regime.continuo.is_intermittente = false := rfl

@[simp] lemma is_intermittente_intermittente : Regime.intermittente.is_intermittente = true := rfl

lemma is_continuo_iff (r : Regime) : r.is_continuo = true ↔ r = Regime.continuo := by
  cases r <;> simp [Regime.is_continuo]

lemma is_intermittente_iff (r : Regime) : r.is_intermittente = true ↔ r = Regime.intermittente := by
  cases r <;> simp [Regime.is_intermittente]

lemma primoMinPrezzo_eq_none_iff (l : List Interruttore) : primoMinPrezzo l = none ↔ l = [] := by
  cases l with
  | nil => simp [primoMinPrezzo]
  | cons b bs =>
    simp only [primoMinPrezzo]
    cases primoMinPrezzo bs with
    | none => simp
    | some c => by_cases h : b.prezzo ≤ c.prezzo <;> simp [h]

lemma primoMinPrezzo_mem : ∀ {l : List Interruttore} {b : Interruttore},
    primoMinPrezzo l = some b → b ∈ l := by
  intro l
  induction l with
  | nil => intro b h; simp [primoMinPrezzo] at h
  | cons a as ih =>
    intro b h
    simp only [primoMinPrezzo] at h
    cases ha : primoMinPrezzo as with
    | none =>
      rw [ha] at h
      simp only at h
      injection h with h
      exact h ▸ List.mem_cons_self a as
    | some c =>
      rw [ha] at h
      simp only at h
      by_cases hp : a.prezzo ≤ c.prezzo
      · rw [if_pos hp] at h
        injection h with h
        exact h ▸ List.mem_cons_self a as
      · rw [if_neg hp] at h
        injection h with h
        exact List.mem_cons_of_mem a (h ▸ ih ha)

lemma primoMinPrezzo_min : ∀ {l : List Interruttore} {b : Interruttore},
    primoMinPrezzo l = some b → ∀ c ∈ l, b.prezzo ≤ c.prezzo := by
  intro l
  induction l with
  | nil => intro b h; simp [primoMinPrezzo] at h
  | cons a as ih =>
    intro b h c hc
    simp only [primoMinPrezzo] at h
    cases ha : primoMinPrezzo as with
    | none =>
      rw [ha] at h
      simp only at h
      injection h with h
      subst h
      rcases List.mem_cons.mp hc with rfl | hcs
      · exact le_refl _
      · exact absurd (primoMinPrezzo_eq_none_iff as |>.mp ha ▸ hcs) (List.not_mem_nil c)
    | some m =>
      rw [ha] at h
      simp only at h
      by_cases hp : a.prezzo ≤ m.prezzo
      · rw [if_pos hp] at h
        injection h with h
        subst h
        rcases List.mem_cons.mp hc with rfl | hcs
        · exact le_refl _
        · exact le_trans hp (ih ha c hcs)
      · rw [if_neg hp] at h
        injection h with h
        subst h
        rcases List.mem_cons.mp hc with rfl | hcs
        · exact le_of_lt (lt_of_not_le hp)
        · exact ih ha c hcs

lemma pyMin_eq_none_iff (l : List ℕ) : pyMin l = none ↔ l = [] := by
  cases l with
  | nil => simp [pyMin]
  | cons a as =>
    simp only [pyMin]
    cases pyMin as <;> simp

lemma pyMin_mem : ∀ {l : List ℕ} {m : ℕ}, pyMin l = some m → m ∈ l := by
  intro l
  induction l with
  | nil => intro m h; simp [pyMin] at h
  | cons a as ih =>
    intro m h
    simp only [pyMin] at h
    cases ha : pyMin as with
    | none =>
      rw [ha] at h
      simp only at h
      injection h with h
      exact h ▸ List.mem_cons_self a as
    | some n =>
      rw [ha] at h
      simp only at h
      injection h with h
      by_cases hp : a ≤ n
      · rw [if_pos hp] at h
        exact h ▸ List.mem_cons_self a as
      · rw [if_neg hp] at h
        exact List.mem_cons_of_mem a (h ▸ ih ha)

lemma pyMin_le : ∀ {l : List ℕ} {m : ℕ}, pyMin l = some m → ∀ x ∈ l, m ≤ x := by
  intro l
  induction l with
  | nil => intro m h; simp [pyMin] at h
  | cons a as ih =>
    intro m h x hx
    simp only [pyMin] at h
    cases ha : pyMin as with
    | none =>
      rw [ha] at h
      simp only at h
      injection h with h
      subst h
      rcases List.mem_cons.mp hx with rfl | hxs
      · exact le_refl _
      · exact absurd (pyMin_eq_none_iff as |>.mp ha ▸ hxs) (List.not_mem_nil x)
    | some n =>
      rw [ha] at h
      simp only at h
      injection h with h
      by_cases hp : a ≤ n
      · rw [if_pos hp] at h
        subst h
        rcases List.mem_cons.mp hx with rfl | hxs
        · exact le_refl _
        · exact le_trans hp (ih ha x hxs)
      · rw [if_neg hp] at h
        subst h
        rcases List.mem_cons.mp hx with rfl | hxs
        · exact le_of_lt (lt_of_not_le hp)
        · exact ih ha x hxs

lemma somma_regimi (l : List Carico) (f g : Carico → ℚ) :
    ((l.filter fun c => c.regime.is_continuo).map f).sum
      + ((l.filter fun c => c.regime.is_intermittente).map g).sum
    = (l.map fun c => if c.regime.is_continuo then f c else g c).sum := by
  induction l with
  | nil => simp
  | cons c l ih =>
    cases hc : c.regime <;>
      simp only [List.filter_cons, List.map_cons, List.sum_cons, hc,
        is_continuo_continuo, is_continuo_intermittente,
        is_intermittente_continuo, is_intermittente_intermittente,
        if_true, Bool.false_eq_true, if_false, ← ih] <;>
      ring

lemma pot_installata_pos (carichi : List Carico) (hne : carichi ≠ [])
    (hpos : ∀ c ∈ carichi, 0 < c.potenza_kw) : 0 < pot_installata carichi := by
  refine List.sum_pos _ ?_ ?_
  · intro a ha
    obtain ⟨c, hc, rfl⟩ := List.mem_map.mp ha
    exact hpos c hc
  · intro h
    exact hne (List.map_eq_nil_iff.mp h)

lemma numeratore_pos (carichi : List Carico) (hne : carichi ≠ [])
    (hpos : ∀ c ∈ carichi, 0 < c.potenza_kw)
    (hore : ∀ c ∈ carichi, 0 < c.ore_giorno) :
    0 < pot_continua carichi + pot_intermittente carichi * 0.7 := by
  rw [pot_continua, pot_intermittente, ← List.sum_map_mul_right, somma_regimi]
  refine List.sum_pos _ ?_ ?_
  · intro a ha
    obtain ⟨c, hc, rfl⟩ := List.mem_map.mp ha
    cases hr : c.regime
    · simp only [hr, Regime.is_continuo, if_true]
      exact hpos c hc
    · simp only [hr, Regime.is_continuo, Bool.false_eq_true, if_false]
      exact mul_pos (mul_pos (hpos c hc) (div_pos (hore c hc) (by norm_num)))
        (by norm_num)
  · intro h
    exact hne (List.map_eq_nil_iff.mp h)

lemma fattore_pos (carichi : List Carico) (hne : carichi ≠ [])
    (hpos : ∀ c ∈ carichi, 0 < c.potenza_kw)
    (hore : ∀ c ∈ carichi, 0 < c.ore_giorno) :
    0 < fattore_contemporaneita carichi :=
  lt_min (by norm_num)
    (div_pos (numeratore_pos carichi hne hpos hore) (pot_installata_pos carichi hne hpos))

lemma fattore_all_continuo (carichi : List Carico) (hne : carichi ≠ [])
    (hpos : ∀ c ∈ carichi, 0 < c.potenza_kw)
    (hall : ∀ c ∈ carichi, c.regime = Regime.continuo) :
    fattore_contemporaneita carichi = 0.9 := by
  have h1 : carichi.filter (fun c => c.regime.is_continuo) = carichi :=
    List.filter_eq_self.mpr fun c hc => (is_continuo_iff c.regime).mpr (hall c hc)
  have h2 : carichi.filter (fun c => c.regime.is_intermittente) = [] :=
    List.filter_eq_nil_iff.mpr fun c hc => by
      rw [hall c hc]
      simp
  rw [fattore_contemporaneita, pot_continua, pot_intermittente, h1, h2]
  simp only [List.map_nil, List.sum_nil, zero_mul, add_zero]
  rw [← pot_installata, div_self (pot_installata_pos carichi hne hpos).ne']
  exact min_eq_left (by norm_num)

/-! ### Claim theorems -/

/-- C1: for every non-empty list of loads (loads satisfy the data-model
invariant `power_kw > 0`), `calcola_potenza_dimensionamento` returns
`installed_power` equal to the sum of `potenza_kw` over all loads,
`simultaneity_factor` equal to
`min(0.9, (continuous_power + 0.7 × intermittent_equivalent) / installed_power)`,
and `design_power` equal to `installed_power × simultaneity_factor × 1.15`
exactly. -/
theorem C1_compute_sizing (carichi : List Carico) (hne : carichi ≠ [])
    (hpos : ∀ c ∈ carichi, 0 < c.potenza_kw) :
    calcola_potenza_dimensionamento carichi =
      Except.ok
        ((carichi.map Carico.potenza_kw).sum,
          min 0.9
            ((((carichi.filter fun c => c.regime.is_continuo).map Carico.potenza_kw).sum +
                0.7 * ((carichi.filter fun c => c.regime.is_intermittente).map
                  fun c => c.potenza_kw * (c.ore_giorno / 24)).sum) /
              (carichi.map Carico.potenza_kw).sum),
          (carichi.map Carico.potenza_kw).sum *
            min 0.9
              ((((carichi.filter fun c => c.regime.is_continuo).map Carico.potenza_kw).sum +
                  0.7 * ((carichi.filter fun c => c.regime.is_intermittente).map
                    fun c => c.potenza_kw * (c.ore_giorno / 24)).sum) /
                (carichi.map Carico.potenza_kw).sum) * 1.15) := by
  have hP := pot_installata_pos carichi hne hpos
  rw [calcola_potenza_dimensionamento, if_neg hP.ne']
  rw [fattore_contemporaneita, pot_installata, pot_continua, pot_intermittente]
  rw [mul_comm (((carichi.filter fun c => c.regime.is_intermittente).map
    fun c => c.potenza_kw * (c.ore_giorno / 24)).sum) 0.7]

/-- Witness for C1 at the single continuous load of the spec's concrete
check (100 kW, 24 h): installed 100, factor 0.9, design 103.5. -/
theorem C1_compute_sizing_witness :
    calcola_potenza_dimensionamento
        [⟨"Centro CNC 1", 100, 1, Regime.continuo, "normale", 24⟩] =
      Except.ok (100, 0.9, 103.5) := by
  have h := C1_compute_sizing
    [⟨"Centro CNC 1", 100, 1, Regime.continuo, "normale", 24⟩]
    (by simp) (by intro c hc; rw [List.mem_singleton] at hc; subst hc; norm_num)
  rw [h]
  norm_num [List.filter_cons, min_def]

/-- C5 counterexample: on the empty load list the sizing computation
fails with the (unhandled) division by zero of the simultaneity ratio,
which is a different failure than the typed `EmptyLoadSet` input error
the claim requires. -/
theorem C5_counterexample :
    calcola_potenza_dimensionamento [] = Except.error ErroreCalcolo.divisioneZero ∧
    (Except.error ErroreCalcolo.divisioneZero : Except ErroreCalcolo (ℚ × ℚ × ℚ)) ≠
      Except.error ErroreCalcolo.emptyLoadSet := by
  constructor
  · simp [calcola_potenza_dimensionamento, pot_installata]
  · intro h
    injection h with h
    exact ErroreCalcolo.noConfusion h

/-- C5 amended: `calcola_potenza_dimensionamento` called on an empty
load list fails with the unhandled division by zero arising from
`installed_power = 0`; no typed `EmptyLoadSet` error exists in the code
(the UI caller guards against empty load lists instead). -/
theorem C5_empty_loads :
    calcola_potenza_dimensionamento [] = Except.error ErroreCalcolo.divisioneZero := by
  simp [calcola_potenza_dimensionamento, pot_installata]

/-- C8: for every non-empty list of loads with all `power_kw > 0` and all
`hours_per_day` in (0, 24], the simultaneity factor satisfies
`0 < f ≤ 0.9`, and it is exactly 0.9 when every load is continuous. -/
theorem C8_simultaneity_bounds (carichi : List Carico) (hne : carichi ≠ [])
    (hpos : ∀ c ∈ carichi, 0 < c.potenza_kw)
    (hore : ∀ c ∈ carichi, 0 < c.ore_giorno ∧ c.ore_giorno ≤ 24) :
    ∃ p f d, calcola_potenza_dimensionamento carichi = Except.ok (p, f, d) ∧
      0 < f ∧ f ≤ 0.9 ∧
      ((∀ c ∈ carichi, c.regime = Regime.continuo) → f = 0.9) := by
  have hP := pot_installata_pos carichi hne hpos
  refine ⟨pot_installata carichi, fattore_contemporaneita carichi,
    pot_installata carichi * fattore_contemporaneita carichi * 1.15, ?_, ?_, ?_, ?_⟩
  · rw [calcola_potenza_dimensionamento, if_neg hP.ne']
  · exact fattore_pos carichi hne hpos fun c hc => (hore c hc).1
  · exact min_le_left _ _
  · intro hall
    exact fattore_all_continuo carichi hne hpos hall

/-- Witness for C8 at a mixed continuous/intermittent pair of loads. -/
theorem C8_simultaneity_bounds_witness :
    ∃ p f d,
      calcola_potenza_dimensionamento
          [⟨"Pastorizzatore", 120, 1, Regime.continuo, "critico", 24⟩,
           ⟨"Centrifuga", 75, 1, Regime.intermittente, "normale", 6⟩] =
        Except.ok (p, f, d) ∧
      0 < f ∧ f ≤ 0.9 ∧
      ((∀ c ∈ [⟨"Pastorizzatore", 120, 1, Regime.continuo, "critico", 24⟩,
               ⟨"Centrifuga", 75, 1, Regime.intermittente, "normale", 6⟩],
          Carico.regime c = Regime.continuo) → f = 0.9) := by
  exact C8_simultaneity_bounds _ (by simp) (by decide) (by decide)

/-- C2: for every required current, fault current and catalog,
`seleziona_interruttore` either returns a catalog entry with
`in_nom ≥ required × 1.25` and `icu ≥ fault` whose price is minimal among
all conforming entries, or returns the failure (`none`, embedding the
source's error dictionary) exactly when no entry conforms; it never
returns a non-conforming entry.  Determinism on identical inputs holds
definitionally: the selection is a pure function of its arguments. -/
theorem C2_select_breaker (corrente_richiesta icc : ℚ) (db : List Interruttore) :
    (∀ b, seleziona_interruttore corrente_richiesta icc db = some b →
        b ∈ db ∧ corrente_richiesta * 1.25 ≤ b.in_nom ∧ icc ≤ b.icu ∧
        ∀ c ∈ db, corrente_richiesta * 1.25 ≤ c.in_nom → icc ≤ c.icu →
          b.prezzo ≤ c.prezzo) ∧
    (seleziona_interruttore corrente_richiesta icc db = none ↔
      ∀ c ∈ db, ¬(corrente_richiesta * 1.25 ≤ c.in_nom ∧ icc ≤ c.icu)) := by
  constructor
  · intro b hb
    rw [seleziona_interruttore] at hb
    have hmem := primoMinPrezzo_mem hb
    rw [List.mem_filter] at hmem
    obtain ⟨hbdb, hcond⟩ := hmem
    rw [Bool.and_eq_true, decide_eq_true_eq, decide_eq_true_eq] at hcond
    refine ⟨hbdb, hcond.1, hcond.2, ?_⟩
    intro c hc h1 h2
    refine primoMinPrezzo_min hb c (List.mem_filter.mpr ⟨hc, ?_⟩)
    rw [Bool.and_eq_true, decide_eq_true_eq, decide_eq_true_eq]
    exact ⟨h1, h2⟩
  · rw [seleziona_interruttore, primoMinPrezzo_eq_none_iff, List.filter_eq_nil_iff]
    constructor
    · intro h c hc hcond
      have hcnd := h c hc
      rw [Bool.and_eq_true, decide_eq_true_eq, decide_eq_true_eq] at hcnd
      exact hcnd hcond
    · intro h c hc
      rw [Bool.and_eq_true, decide_eq_true_eq, decide_eq_true_eq]
      exact h c hc

/-- Witness for C2: at required current 320 A and fault level 30 kA the
selection over the source catalog is the 2800 € T5H400/400, which
conforms and is price-minimal among conforming entries. -/
theorem C2_select_breaker_witness :
    (⟨"T5", "T5H400", 400, 65, 2800⟩ : Interruttore) ∈ load_interruttori_db ∧
    (320 : ℚ) * 1.25 ≤ 400 ∧ (30 : ℚ) ≤ 65 ∧
    ∀ c ∈ load_interruttori_db, (320 : ℚ) * 1.25 ≤ c.in_nom → (30 : ℚ) ≤ c.icu →
      (2800 : ℚ) ≤ c.prezzo := by
  have hsel : seleziona_interruttore 320 30 load_interruttori_db =
      some ⟨"T5", "T5H400", 400, 65, 2800⟩ := by
    norm_num [seleziona_interruttore, load_interruttori_db, List.filter, primoMinPrezzo]
  have h := (C2_select_breaker 320 30 load_interruttori_db).1 _ hsel
  exact ⟨h.1, h.2.1, h.2.2.1, h.2.2.2⟩

/-- C3: for every dissipated power, every volume > 0 and every protection
grade, the thermal verification succeeds with
`max_dissipable = volume × 400 × coefficient` (coefficient 1.0 for IP31,
0.9 for IP43, 0.75 for IP65, 0.8 otherwise),
`margin = (max_dissipable − dissipated) / max_dissipable × 100`, and the
verdict is OK iff margin > 20, CRITICO (= the spec's CRITICAL) iff
0 < margin ≤ 20, and NON OK (= the spec's NOT_OK) iff margin ≤ 0. -/
theorem C3_verify_thermal (pot_diss volume_m3 : ℚ) (ip_grade : String)
    (hv : 0 < volume_m3) :
    ∃ r, verifica_termica_semplificata pot_diss volume_m3 ip_grade = Except.ok r ∧
      r.pot_dissipabile = volume_m3 * 400 *
        (if ip_grade = "IP31" then 1.0 else if ip_grade = "IP43" then 0.9
          else if ip_grade = "IP65" then 0.75 else 0.8) ∧
      r.margine_pct = (r.pot_dissipabile - pot_diss) / r.pot_dissipabile * 100 ∧
      (r.esito = "OK" ↔ 20 < r.margine_pct) ∧
      (r.esito = "CRITICO" ↔ 0 < r.margine_pct ∧ r.margine_pct ≤ 20) ∧
      (r.esito = "NON OK" ↔ r.margine_pct ≤ 0) := by
  have hk : 0 < coeff_dissip ip_grade := by
    rw [coeff_dissip]
    split_ifs <;> norm_num
  have hmax : pot_dissipabile_max volume_m3 ip_grade ≠ 0 := by
    rw [pot_dissipabile_max]
    exact (mul_pos (mul_pos hv (by norm_num)) hk).ne'
  refine ⟨⟨pot_diss, pot_dissipabile_max volume_m3 ip_grade,
    margine pot_diss volume_m3 ip_grade,
    if 20 < margine pot_diss volume_m3 ip_grade then "OK"
    else if 0 < margine pot_diss volume_m3 ip_grade then "CRITICO" else "NON OK"⟩,
    ?_, ?_, ?_, ?_, ?_, ?_⟩
  · rw [verifica_termica_semplificata, if_neg hmax]
  · rw [pot_dissipabile_max, coeff_dissip]
  · rw [margine]
  · by_cases h20 : 20 < margine pot_diss volume_m3 ip_grade
    · simp [h20]
    · by_cases h0 : 0 < margine pot_diss volume_m3 ip_grade <;> simp [h20, h0]
  · by_cases h20 : 20 < margine pot_diss volume_m3 ip_grade
    · simp only [if_pos h20]
      constructor
      · intro hh
        exact absurd hh (by decide)
      · intro hh
        exact absurd h20 (not_lt.mpr hh.2)
    · by_cases h0 : 0 < margine pot_diss volume_m3 ip_grade <;>
        simp [h20, h0, not_lt.mp h20]
  · by_cases h20 : 20 < margine pot_diss volume_m3 ip_grade
    · simp only [if_pos h20]
      constructor
      · intro hh
        exact absurd hh (by decide)
      · intro hh
        exact absurd (lt_trans (by norm_num) h20) (not_lt.mpr hh)
    · by_cases h0 : 0 < margine pot_diss volume_m3 ip_grade <;>
        simp [h20, h0, not_lt.mp, le_of_not_lt]

/-- Witness for C3 at 100 W dissipated in 1 m³ at IP31: margin 75 %,
verdict OK. -/
theorem C3_verify_thermal_witness :
    ∃ r, verifica_termica_semplificata 100 1 "IP31" = Except.ok r ∧
      r.pot_dissipabile = 1 * 400 *
        (if "IP31" = "IP31" then 1.0 else if "IP31" = "IP43" then 0.9
          else if "IP31" = "IP65" then 0.75 else 0.8) ∧
      r.margine_pct = (r.pot_dissipabile - 100) / r.pot_dissipabile * 100 ∧
      (r.esito = "OK" ↔ 20 < r.margine_pct) ∧
      (r.esito = "CRITICO" ↔ 0 < r.margine_pct ∧ r.margine_pct ≤ 20) ∧
      (r.esito = "NON OK" ↔ r.margine_pct ≤ 0) :=
  C3_verify_thermal 100 1 "IP31" (by norm_num)

/-- C4 counterexample: the expression `(1 × 1000) / (1.732 × 400 × 0.06)`
named by the claim is the value the code computes, but it exceeds 24 kA,
so it is not approximately 2.406 kA. -/
theorem C4_counterexample :
    calcola_corrente_cortocircuito 1000 400 = (1 * 1000) / (1.732 * 400 * 0.06) ∧
    24 < calcola_corrente_cortocircuito 1000 400 := by
  constructor <;> norm_num [calcola_corrente_cortocircuito]

/-- C4 amended: `calcola_corrente_cortocircuito 1000 400` equals the
claimed expression `(1 × 1000) / (1.732 × 400 × 0.06)` exactly, whose
value is `31250/1299 ≈ 24.057` kA (not 2.406 kA). -/
theorem C4_fault_current_value :
    calcola_corrente_cortocircuito 1000 400 = (1 * 1000) / (1.732 * 400 * 0.06) ∧
    calcola_corrente_cortocircuito 1000 400 = 31250 / 1299 ∧
    24.056 < calcola_corrente_cortocircuito 1000 400 ∧
    calcola_corrente_cortocircuito 1000 400 < 24.058 := by
  refine ⟨?_, ?_, ?_, ?_⟩ <;> norm_num [calcola_corrente_cortocircuito]

/-- C6: the transformer lookup returns the smallest standard size ≥
`design_power`, fails exactly when `design_power` exceeds 2500 kVA, and
the selected size is monotonically non-decreasing in `design_power`. -/
theorem C6_select_transformer (d : ℚ) :
    (∀ k, select_transformer d = some k →
        k ∈ trasf_std ∧ d ≤ (k : ℚ) ∧ ∀ t ∈ trasf_std, d ≤ (t : ℚ) → k ≤ t) ∧
    (select_transformer d = none ↔ 2500 < d) ∧
    (∀ e k j, d ≤ e → select_transformer d = some k →
      select_transformer e = some j → k ≤ j) := by
  have hchar : ∀ (e : ℚ) (k : ℕ), select_transformer e = some k →
      k ∈ trasf_std ∧ e ≤ (k : ℚ) ∧ ∀ t ∈ trasf_std, e ≤ (t : ℚ) → k ≤ t := by
    intro e k hk
    rw [select_transformer] at hk
    have hmem := pyMin_mem hk
    rw [List.mem_filter, decide_eq_true_eq] at hmem
    refine ⟨hmem.1, hmem.2, ?_⟩
    intro t ht hdt
    exact pyMin_le hk t (List.mem_filter.mpr ⟨ht, decide_eq_true hdt⟩)
  refine ⟨hchar d, ?_, ?_⟩
  · rw [select_transformer, pyMin_eq_none_iff, List.filter_eq_nil_iff]
    constructor
    · intro h
      by_contra hlt
      have h25 := h 2500 (by decide)
      apply h25
      rw [decide_eq_true_eq]
      exact_mod_cast not_lt.mp hlt
    · intro hd t ht hdec
      rw [decide_eq_true_eq] at hdec
      have h1 : ∀ s ∈ trasf_std, s ≤ 2500 := by decide
      have h2 : (t : ℚ) ≤ 2500 := by exact_mod_cast h1 t ht
      linarith
  · intro e k j hde hk hj
    obtain ⟨hjmem, hjle, _⟩ := hchar e j hj
    exact (hchar d k hk).2.2 j hjmem (le_trans hde hjle)

/-- Witness for C6 at design power 170 kW: the selection is 250 kVA,
which is a standard size ≥ 170 and minimal among fitting sizes. -/
theorem C6_select_transformer_witness :
    (250 : ℕ) ∈ trasf_std ∧ (170 : ℚ) ≤ ((250 : ℕ) : ℚ) ∧
      ∀ t ∈ trasf_std, (170 : ℚ) ≤ (t : ℚ) → (250 : ℕ) ≤ t := by
  have hsel : select_transformer 170 = some 250 := by
    norm_num [select_transformer, trasf_std, List.filter, pyMin]
  exact (C6_select_transformer 170).1 250 hsel

/-- C7 counterexample: at volume −1 m³ (≤ 0) the thermal verification
does not fail with a typed `InvalidVolume` error; it evaluates the margin
formula normally and even reports verdict OK (margin 125 %). -/
theorem C7_counterexample :
    verifica_termica_semplificata 100 (-1) "IP31" =
      Except.ok ⟨100, -400, 125, "OK"⟩ := by
  norm_num [verifica_termica_semplificata, pot_dissipabile_max, margine, coeff_dissip]

/-- C7 amended: the thermal verification performs no volume validation:
at volume 0 it fails with the unhandled division by zero of the margin
formula, and at negative volume it evaluates the margin formula and
returns a successful result. -/
theorem C7_no_volume_validation (pot_diss volume_m3 : ℚ) (ip_grade : String) :
    verifica_termica_semplificata pot_diss 0 ip_grade =
      Except.error ErroreTermico.divisioneZero ∧
    (volume_m3 < 0 →
      ∃ r, verifica_termica_semplificata pot_diss volume_m3 ip_grade = Except.ok r) := by
  constructor
  · rw [verifica_termica_semplificata,
      if_pos (show pot_dissipabile_max 0 ip_grade = 0 by rw [pot_dissipabile_max]; ring)]
  · intro hv
    have hk : 0 < coeff_dissip ip_grade := by
      rw [coeff_dissip]
      split_ifs <;> norm_num
    have hmax : pot_dissipabile_max volume_m3 ip_grade ≠ 0 := by
      rw [pot_dissipabile_max]
      exact (mul_neg_of_neg_of_pos (mul_neg_of_neg_of_pos hv (by norm_num)) hk).ne
    exact ⟨_, by rw [verifica_termica_semplificata, if_neg hmax]⟩

/-- Witness for C7 amended at dissipated 100 W, volume −1 m³, IP31. -/
theorem C7_no_volume_validation_witness :
    ∃ r, verifica_termica_semplificata 100 (-1) "IP31" = Except.ok r :=
  (C7_no_volume_validation 100 (-1) "IP31").2 (by norm_num)

/-- C9: adding a load whose (data-model valid: non-blank, positive-power)
fields duplicate an existing load's name up to letter case is rejected
with the duplicate-name error, and the collection is unchanged. -/
theorem C9_duplicate_name_add (carichi : List Carico) (nome : String)
    (potenza cos_phi : ℚ) (regime : Regime) (priorita : String) (ore_giorno : ℚ)
    (hnome : pyStrip nome ≠ "") (hpot : 0 < potenza)
    (hdup : ∃ c ∈ carichi, pyLower c.nome = pyLower nome) :
    aggiungi_carico carichi nome potenza cos_phi regime priorita ore_giorno =
      Except.error ErroreAdd.nomeDuplicato ∧
    carichi_dopo_aggiunta carichi nome potenza cos_phi regime priorita ore_giorno =
      carichi := by
  obtain ⟨c, hc, hlow⟩ := hdup
  have hany : (carichi.any fun c => decide (pyLower c.nome = pyLower nome)) = true :=
    List.any_eq_true.mpr ⟨c, hc, decide_eq_true hlow⟩
  have h1 : aggiungi_carico carichi nome potenza cos_phi regime priorita ore_giorno =
      Except.error ErroreAdd.nomeDuplicato := by
    rw [aggiungi_carico, if_neg hnome, if_neg (not_le.mpr hpot), if_pos hany]
  refine ⟨h1, ?_⟩
  rw [carichi_dopo_aggiunta, h1]

/-- Witness for C9: adding "MOTORE" when "Motore" is present is rejected
and the collection stays as it was. -/
theorem C9_duplicate_name_add_witness :
    aggiungi_carico [⟨"Motore", 10, 1, Regime.continuo, "normale", 24⟩] "MOTORE" 5 1
        Regime.continuo "normale" 8 =
      Except.error ErroreAdd.nomeDuplicato ∧
    carichi_dopo_aggiunta [⟨"Motore", 10, 1, Regime.continuo, "normale", 24⟩] "MOTORE" 5 1
        Regime.continuo "normale" 8 =
      [⟨"Motore", 10, 1, Regime.continuo, "normale", 24⟩] :=
  C9_duplicate_name_add _ _ _ _ _ _ _ (by decide) (by decide) (by decide)

/-- C10: the enclosure selection is the ordered guard chain of the
source: loads+1 ≤ 6 and current ≤ 400 gives the ArTu M single column at
8000 €, otherwise loads+1 ≤ 12 and current ≤ 800 gives the ArTu K single
column at 12000 €, otherwise the ArTu K double column at 18000 €. -/
theorem C10_carpentry_selection (n : ℕ) (i : ℚ) :
    (n + 1 ≤ 6 → i ≤ 400 → scegli_carpenteria n i = ("ArTu M - 1 colonna", 8000)) ∧
    (¬(n + 1 ≤ 6 ∧ i ≤ 400) → n + 1 ≤ 12 → i ≤ 800 →
      scegli_carpenteria n i = ("ArTu K - 1 colonna", 12000)) ∧
    (¬(n + 1 ≤ 6 ∧ i ≤ 400) → ¬(n + 1 ≤ 12 ∧ i ≤ 800) →
      scegli_carpenteria n i = ("ArTu K - 2 colonne", 18000)) := by
  refine ⟨?_, ?_, ?_⟩
  · intro h1 h2
    rw [scegli_carpenteria, if_pos ⟨h1, h2⟩]
  · intro hn h1 h2
    rw [scegli_carpenteria, if_neg hn, if_pos ⟨h1, h2⟩]
  · intro hn1 hn2
    rw [scegli_carpenteria, if_neg hn1, if_neg hn2]

/-- Witness for C10: three loads at 300 A general current select the
ArTu M single column at 8000 €. -/
theorem C10_carpentry_selection_witness :
    scegli_carpenteria 3 300 = ("ArTu M - 1 colonna", 8000) :=
  (C10_carpentry_selection 3 300).1 (by norm_num) (by norm_num)

end QuadriCad
